import Mathlib

/-!
Shallow embedding of `src/backend/services/evacuation_guidance_service.py`.

The module under verification orchestrates six external collaborators
(fire feed, danger-zone builder, alert-level classifier, safe-place
directory, routing engine, cell-coverage estimator) into a single
evacuation-guidance result.  Collaborators are modelled as function
parameters returning `Except String` values: `Except.ok` is a normal
return, `Except.error e` is a raised exception whose message is `e`.
Numbers are modelled as exact rationals (the orchestration code performs
no arithmetic on them beyond formatting), except the bearing calculator,
which is modelled over the real numbers with exact trigonometry.
-/

namespace EvacuationGuidance

/-- Fire record produced by the fire feed (spec data model: one field,
the distance in km). -/
structure Fire where
  distance_km : ℚ
deriving Repr, DecidableEq

/-- Danger zones are opaque geometry tokens passed through unmodified;
an abstract identifier suffices. -/
structure DangerZone where
  zone_id : Nat
deriving Repr, DecidableEq

/-- Alert level enumeration per the spec data model, with the value
serialization used by the source through the `.value` attribute. -/
inductive AlertLevel where
  | none
  | low
  | medium
  | high
  | critical
deriving Repr, DecidableEq

/-- String serialization of an alert level (the `.value` attribute of the
source enumeration). -/
def AlertLevel.value : AlertLevel → String
  | AlertLevel.none => "none"
  | AlertLevel.low => "low"
  | AlertLevel.medium => "medium"
  | AlertLevel.high => "high"
  | AlertLevel.critical => "critical"

/-- The alert-level variable of the source holds either the enumeration
value (success path) or the plain string "none" (failure path); the
source extracts a string via `alert_level.value if hasattr(alert_level,
"value") else str(alert_level)`.  `Sum.inl` models the enumeration case,
`Sum.inr` the plain-string case. -/
def alertLevelStr : Sum AlertLevel String → String
  | Sum.inl level => level.value
  | Sum.inr s => s

/-- Safe place record from the directory lookup. -/
structure SafePlace where
  id : Nat
  name : String
  latitude : ℚ
  longitude : ℚ
  distance_km : ℚ
  is_in_danger_zone : Bool
deriving Repr, DecidableEq

/-- One route step; an empty instruction string models a step with no
turn-by-turn text. -/
structure RouteStep where
  instruction : String
deriving Repr, DecidableEq

/-- Route returned by the routing collaborator. -/
structure Route where
  distance_km : ℚ
  duration_minutes : ℚ
  steps : List RouteStep
deriving Repr, DecidableEq

/-- Destination dictionary handed to the routing collaborator
(`{"lat": ..., "lng": ..., "name": ..., "id": ...}` in the source). -/
structure DestinationInfo where
  lat : ℚ
  lng : ℚ
  name : String
  id : Nat
deriving Repr, DecidableEq

/-- Chosen-destination record returned by the routing collaborator; the
source reads only its `"id"` entry. -/
structure ChosenDestination where
  id : Nat
deriving Repr, DecidableEq

/-- Coverage estimate dictionary; `has_coverage = Option.none` models a
dictionary without the `"has_coverage"` key (the source reads it with
`coverage.get("has_coverage")`, which yields `None` in that case). -/
structure Coverage where
  has_coverage : Option Bool
deriving Repr, DecidableEq

/-- Final result record assembled by `build_evacuation_guidance`. -/
structure GuidanceResult where
  guidance_text : String
  alert_level : String
  closest_fire_km : Option ℚ
  destination_name : Option String
  destination_direction : Option String
  destination_distance_km : Option ℚ
  route_distance_km : Option ℚ
  route_duration_minutes : Option ℚ
  route_steps : List String
  warnings : List String
deriving Repr, DecidableEq

/-- Rounding of a rational to the nearest integer with ties going to the
even neighbour, as Python format specifiers round. -/
def roundHalfEvenQ (q : ℚ) : ℤ :=
  if q - ⌊q⌋ < 1/2 then ⌊q⌋
  else if 1/2 < q - ⌊q⌋ then ⌊q⌋ + 1
  else if 2 ∣ ⌊q⌋ then ⌊q⌋ else ⌊q⌋ + 1

/-- Rendering of a rational with one decimal digit, the `:.1f` format of
the source. -/
def formatFixed1 (q : ℚ) : String :=
  let n := roundHalfEvenQ (q * 10)
  if n < 0 then
    "-" ++ toString ((-n).toNat / 10) ++ "." ++ toString ((-n).toNat % 10)
  else
    toString (n.toNat / 10) ++ "." ++ toString (n.toNat % 10)

/-- Rendering of a rational with no decimal digits, the `:.0f` format of
the source. -/
def formatFixed0 (q : ℚ) : String :=
  let n := roundHalfEvenQ q
  if n < 0 then "-" ++ toString (-n).toNat else toString n.toNat

/-- Python `round` on a real number: nearest integer, ties to the even
neighbour.  Used by the bearing calculator. -/
noncomputable def pyRound (x : ℝ) : ℤ :=
  if Int.fract x = 1/2 then
    (if 2 ∣ ⌊x⌋ then ⌊x⌋ else ⌊x⌋ + 1)
  else round x

/-- Two-argument arctangent with the C convention, as `math.atan2`;
`atan2 a b` is the angle of the point `(b, a)`, realised as the complex
argument, with `atan2 0 0 = 0`. -/
noncomputable def atan2 (a b : ℝ) : ℝ := Complex.arg { re := b, im := a }

/-- The fixed clockwise direction list of the source, starting at north. -/
def directions : List String :=
  ["north", "northeast", "east", "southeast", "south", "southwest", "west", "northwest"]

/-- Lines 10 to 17 of the source: initial great-circle bearing from the
origin to the destination, in degrees (`math.degrees(math.atan2(x, y))`). -/
noncomputable def initialBearingDeg (origin_lat origin_lng dest_lat dest_lng : ℝ) : ℝ :=
  let lat1 := origin_lat * (Real.pi / 180)
  let lat2 := dest_lat * (Real.pi / 180)
  let diff_lng := (dest_lng - origin_lng) * (Real.pi / 180)
  let x := Real.sin diff_lng * Real.cos lat2
  let y := Real.cos lat1 * Real.sin lat2 - Real.sin lat1 * Real.cos lat2 * Real.cos diff_lng
  atan2 x y * (180 / Real.pi)

/-- The source function `_bearing_to_cardinal`: normalize the bearing to
[0, 360) with `(initial_bearing + 360) % 360` (Python float modulo),
divide by 45, round, and index the direction list modulo 8. -/
noncomputable def bearing_to_cardinal (origin_lat origin_lng dest_lat dest_lng : ℝ) : String :=
  let initial_bearing := initialBearingDeg origin_lat origin_lng dest_lat dest_lng
  let normalized := (initial_bearing + 360) - 360 * ⌊(initial_bearing + 360) / 360⌋
  directions.getD ((pyRound (normalized / 45)) % 8).toNat ""

/-- Base sentence selection of `_build_instruction_text` (lines 34 to 41
of the source): first matching rule wins.  The membership test
`alert_level in {"critical", "high"}` is the disjunction. -/
def instructionBase (alert_level : String) (closest_fire_km : Option ℚ) : String :=
  if alert_level = "critical" ∨ alert_level = "high" then
    "Immediate evacuation is recommended."
  else if alert_level = "medium" then
    "Move carefully and prepare to leave the area."
  else if closest_fire_km.isSome then
    "No immediate evacuation is required, but stay alert."
  else
    "No nearby fire was detected from the current feed."

/-- The source function `_build_instruction_text`. -/
def build_instruction_text (alert_level : String) (closest_fire_km : Option ℚ)
    (warnings : List String) : String :=
  let base := instructionBase alert_level closest_fire_km
  let base2 :=
    match closest_fire_km with
    | Option.some km => base ++ " The nearest fire is about " ++ formatFixed1 km ++ " kilometers away."
    | Option.none => base
  match warnings with
  | [] => base2
  | w :: _ => base2 ++ " Warning: " ++ w ++ "."

/-- Fallback clause of `_build_guidance_text`, used when no direction or
no destination distance is available. -/
def fallbackClause : String :=
  " A verified escape path is not available right now. If conditions worsen, move away from smoke and flames, keep low, and contact emergency services."

/-- The source function `_build_guidance_text`.  The Python truthiness
check `not destination_direction` holds for `None` and for the empty
string, modelled by the outer match plus the emptiness test. -/
def build_guidance_text (destination_name destination_direction : Option String)
    (destination_distance_km route_distance_km route_duration_minutes : Option ℚ)
    (route_steps : List String) (alert_level : String) (closest_fire_km : Option ℚ)
    (warnings : List String) : String :=
  let intro := build_instruction_text alert_level closest_fire_km warnings
  match destination_direction, destination_distance_km with
  | Option.some direction, Option.some destination_distance =>
    if direction = "" then
      intro ++ fallbackClause
    else
      let location_phrase := "toward the " ++ direction
      let location_phrase2 :=
        match destination_name with
        | Option.some dname =>
            if dname = "" then location_phrase else location_phrase ++ " to reach " ++ dname
        | Option.none => location_phrase
      let route_phrase :=
        match route_distance_km, route_duration_minutes with
        | Option.some rd, Option.some rdur =>
            " for about " ++ formatFixed1 rd ++ " kilometers, roughly " ++ formatFixed0 rdur ++ " minutes"
        | _, _ => " for about " ++ formatFixed1 destination_distance ++ " kilometers"
      let steps_text :=
        match route_steps with
        | [] => ""
        | _ :: _ => " Follow these steps: " ++ String.intercalate " Then " (route_steps.take 3) ++ "."
      intro ++ " Head " ++ location_phrase2 ++ route_phrase ++ "." ++ steps_text
  | _, _ => intro ++ fallbackClause

/-- Body of the first try block of `build_evacuation_guidance` (lines 95
to 98): fetch fires, derive danger zones, take the first fire distance
as the closest, classify the alert level.  Any failure of the three
collaborator calls escapes as `Except.error`. -/
def riskFetch (latitude longitude : ℚ)
    (fetch_fires : ℚ → ℚ → ℚ → Except String (List Fire))
    (create_danger_zones : List Fire → Except String (List DangerZone))
    (determine_alert_level : Option ℚ → Nat → Except String AlertLevel) :
    Except String (List Fire × List DangerZone × Option ℚ × AlertLevel) := do
  let fires ← fetch_fires latitude longitude 50
  let danger_zones ← create_danger_zones fires
  let closest_fire_km := fires.head?.map Fire.distance_km
  let alert_level ← determine_alert_level closest_fire_km fires.length
  pure (fires, danger_zones, closest_fire_km, alert_level)

/-- Lines 94 to 104 of the source: the risk stage with its exception
handler.  On failure every output is replaced by its safe default and a
warning is recorded. -/
def riskStage (latitude longitude : ℚ)
    (fetch_fires : ℚ → ℚ → ℚ → Except String (List Fire))
    (create_danger_zones : List Fire → Except String (List DangerZone))
    (determine_alert_level : Option ℚ → Nat → Except String AlertLevel) :
    List Fire × List DangerZone × Option ℚ × Sum AlertLevel String × List String :=
  match riskFetch latitude longitude fetch_fires create_danger_zones determine_alert_level with
  | Except.ok (fires, danger_zones, closest_fire_km, alert_level) =>
      (fires, danger_zones, closest_fire_km, Sum.inl alert_level, [])
  | Except.error e =>
      ([], [], Option.none, Sum.inr "none", ["Could not fetch fire data: " ++ e])

/-- Lines 106 to 116 of the source: fetch safe places at radius 20 and
keep those not flagged as inside a danger zone; on failure the list
stays empty and a warning is recorded. -/
def safePlaceStage (latitude longitude : ℚ) (danger_zones : List DangerZone)
    (fetch_safe_places : ℚ → ℚ → ℚ → List DangerZone → Except String (List SafePlace)) :
    List SafePlace × List String :=
  match fetch_safe_places latitude longitude 20 danger_zones with
  | Except.ok places => (places.filter (fun place => !place.is_in_danger_zone), [])
  | Except.error e => ([], ["Could not fetch safe places: " ++ e])

/-- Lines 118 to 120 of the source: the coverage estimator is called
outside any try block, so a failure propagates; a returned estimate
without coverage adds the fixed warning. -/
def coverageStage (latitude longitude : ℚ) (danger_zones : List DangerZone)
    (estimate_coverage_simple : ℚ → ℚ → List DangerZone → Except String Coverage) :
    Except String (List String) :=
  match estimate_coverage_simple latitude longitude danger_zones with
  | Except.ok coverage =>
      if coverage.has_coverage = Option.some true then Except.ok []
      else Except.ok ["Cell coverage may be degraded in your area"]
  | Except.error e => Except.error e

/-- Destination dictionary built from a safe place at lines 126 to 129. -/
def mkDestinationInfo (place : SafePlace) : DestinationInfo :=
  { lat := place.latitude, lng := place.longitude, name := place.name, id := place.id }

/-- Lines 122 to 141 of the source: the routing stage.  The default
destination is the first safe place; the routing collaborator is called
only when the list is non-empty, on at most its first five entries, and
a chosen destination id is cross-referenced back into the list. -/
def routingStage (latitude longitude : ℚ) (safe_places : List SafePlace)
    (danger_zones : List DangerZone)
    (get_route_to_nearest_safe_place :
      ℚ → ℚ → List DestinationInfo → List DangerZone →
        Except String (Option (Route × ChosenDestination))) :
    Option Route × Option SafePlace × List String :=
  let destination := safe_places.head?
  match safe_places with
  | [] => (Option.none, destination, [])
  | _ :: _ =>
    let destinations := (safe_places.take 5).map mkDestinationInfo
    match get_route_to_nearest_safe_place latitude longitude destinations danger_zones with
    | Except.ok (Option.some (route, dest_info)) =>
        let destination2 :=
          match safe_places.find? (fun place => place.id == dest_info.id) with
          | Option.some place => Option.some place
          | Option.none => destination
        (Option.some route, destination2, [])
    | Except.ok Option.none => (Option.none, destination, [])
    | Except.error e => (Option.none, destination, ["Could not calculate route: " ++ e])

/-- Lines 143 to 182 of the source: derive direction, distance and route
steps from the chosen destination and route, compose the guidance text,
and assemble the result record. -/
noncomputable def assembleResult (latitude longitude : ℚ) (closest_fire_km : Option ℚ)
    (alert_level : Sum AlertLevel String) (route : Option Route)
    (destination : Option SafePlace) (warnings : List String) : GuidanceResult :=
  let destination_direction := destination.map (fun d =>
    bearing_to_cardinal (latitude : ℝ) (longitude : ℝ) ((d.latitude : ℚ) : ℝ) ((d.longitude : ℚ) : ℝ))
  let destination_distance_km := destination.map SafePlace.distance_km
  let route_steps : List String :=
    match route with
    | Option.some r => (r.steps.filter (fun step => !(step.instruction == ""))).map RouteStep.instruction
    | Option.none => []
  { guidance_text :=
      build_guidance_text (destination.map SafePlace.name) destination_direction
        destination_distance_km (route.map Route.distance_km)
        (route.map Route.duration_minutes) route_steps (alertLevelStr alert_level)
        closest_fire_km warnings
    alert_level := alertLevelStr alert_level
    closest_fire_km := closest_fire_km
    destination_name := destination.map SafePlace.name
    destination_direction := destination_direction
    destination_distance_km := destination_distance_km
    route_distance_km := route.map Route.distance_km
    route_duration_minutes := route.map Route.duration_minutes
    route_steps := route_steps.take 3
    warnings := warnings }

/-- The public entry point `build_evacuation_guidance` (lines 88 to 182),
composed of the four stages in source order.  The only uncaught failure
point is the coverage estimator call. -/
noncomputable def build_evacuation_guidance (latitude longitude : ℚ)
    (fetch_fires : ℚ → ℚ → ℚ → Except String (List Fire))
    (create_danger_zones : List Fire → Except String (List DangerZone))
    (determine_alert_level : Option ℚ → Nat → Except String AlertLevel)
    (fetch_safe_places : ℚ → ℚ → ℚ → List DangerZone → Except String (List SafePlace))
    (estimate_coverage_simple : ℚ → ℚ → List DangerZone → Except String Coverage)
    (get_route_to_nearest_safe_place :
      ℚ → ℚ → List DestinationInfo → List DangerZone →
        Except String (Option (Route × ChosenDestination))) :
    Except String GuidanceResult :=
  let risk := riskStage latitude longitude fetch_fires create_danger_zones determine_alert_level
  let danger_zones := risk.2.1
  let closest_fire_km := risk.2.2.1
  let alert_level := risk.2.2.2.1
  let fire_warnings := risk.2.2.2.2
  let sp := safePlaceStage latitude longitude danger_zones fetch_safe_places
  match coverageStage latitude longitude danger_zones estimate_coverage_simple with
  | Except.error e => Except.error e
  | Except.ok coverage_warnings =>
    let rt := routingStage latitude longitude sp.1 danger_zones get_route_to_nearest_safe_place
    Except.ok (assembleResult latitude longitude closest_fire_km alert_level rt.1 rt.2.1
      (fire_warnings ++ sp.2 ++ coverage_warnings ++ rt.2.2))

/-- Specification-side restatement of the Instruction Composer policy
(spec section 4.2): base sentence by first match, then the distance
clause when a distance is present, then exactly the first warning. -/
def instructionSpec (alert_level : String) (closest_fire_km : Option ℚ)
    (warnings : List String) : String :=
  (if alert_level = "critical" ∨ alert_level = "high" then
    "Immediate evacuation is recommended."
  else if alert_level = "medium" then
    "Move carefully and prepare to leave the area."
  else if closest_fire_km.isSome then
    "No immediate evacuation is required, but stay alert."
  else
    "No nearby fire was detected from the current feed.")
  ++ (match closest_fire_km with
      | Option.some km => " The nearest fire is about " ++ formatFixed1 km ++ " kilometers away."
      | Option.none => "")
  ++ (match warnings with
      | [] => ""
      | w :: _ => " Warning: " ++ w ++ ".")

/-! Helper lemmas. -/

theorem instructionBase_length_pos (alert_level : String) (closest_fire_km : Option ℚ) :
    0 < (instructionBase alert_level closest_fire_km).length := by
  unfold instructionBase
  split_ifs <;> decide

theorem build_instruction_text_length_pos (alert_level : String) (closest_fire_km : Option ℚ)
    (warnings : List String) :
    0 < (build_instruction_text alert_level closest_fire_km warnings).length := by
  have hb := instructionBase_length_pos alert_level closest_fire_km
  unfold build_instruction_text
  cases closest_fire_km <;> cases warnings <;>
    simp only [String.length_append] <;> omega

theorem build_guidance_text_length_pos (destination_name destination_direction : Option String)
    (destination_distance_km route_distance_km route_duration_minutes : Option ℚ)
    (route_steps : List String) (alert_level : String) (closest_fire_km : Option ℚ)
    (warnings : List String) :
    0 < (build_guidance_text destination_name destination_direction destination_distance_km
        route_distance_km route_duration_minutes route_steps alert_level closest_fire_km
        warnings).length := by
  have hb := build_instruction_text_length_pos alert_level closest_fire_km warnings
  unfold build_guidance_text
  cases destination_direction with
  | none => simp only [String.length_append]; omega
  | some direction =>
    cases destination_distance_km with
    | none => simp only [String.length_append]; omega
    | some dist =>
      dsimp only
      split_ifs with h
      · simp only [String.length_append]; omega
      · cases destination_name <;> cases route_distance_km <;> cases route_duration_minutes <;>
          cases route_steps <;> dsimp only <;> (try split_ifs) <;>
          simp only [String.length_append] <;> omega

theorem string_ne_empty_of_length_pos {s : String} (h : 0 < s.length) : s ≠ "" := by
  intro he
  subst he
  simp at h

/-- Claim C3: the Instruction Composer picks its base sentence by first
match (critical or high, then medium, then distance present, then the
no-fire default), appends the distance clause rounded to one decimal km
when a distance is present, and appends exactly the first warning when
the warning list is non-empty. -/
theorem instruction_text_spec (alert_level : String) (closest_fire_km : Option ℚ)
    (warnings : List String) :
    build_instruction_text alert_level closest_fire_km warnings =
      instructionSpec alert_level closest_fire_km warnings := by
  unfold build_instruction_text instructionSpec instructionBase
  cases closest_fire_km <;> cases warnings <;>
    simp only [String.append_empty, String.append_assoc]

/-- Claim C4: whenever the destination direction is null or empty, or the
destination distance is null, the Guidance Text Composer returns exactly
the Instruction Composer sentence followed by the fixed fallback safety
clause, so no route, direction phrase or steps are mentioned. -/
theorem guidance_text_fallback (destination_name destination_direction : Option String)
    (destination_distance_km route_distance_km route_duration_minutes : Option ℚ)
    (route_steps : List String) (alert_level : String) (closest_fire_km : Option ℚ)
    (warnings : List String)
    (h : destination_direction = Option.none ∨ destination_direction = Option.some "" ∨
      destination_distance_km = Option.none) :
    build_guidance_text destination_name destination_direction destination_distance_km
        route_distance_km route_duration_minutes route_steps alert_level closest_fire_km
        warnings =
      build_instruction_text alert_level closest_fire_km warnings ++ fallbackClause := by
  unfold build_guidance_text
  rcases h with h | h | h
  · subst h
    cases destination_distance_km <;> rfl
  · subst h
    cases destination_distance_km <;> simp
  · subst h
    cases destination_direction <;> rfl

/-- Witness for claim C4 at a concrete input. -/
theorem guidance_text_fallback_witness :
    build_guidance_text (Option.some "Shelter") Option.none (Option.some 10)
        (Option.some 12) (Option.some 15) ["go north"] "high" (Option.some 5) [] =
      build_instruction_text "high" (Option.some 5) [] ++ fallbackClause :=
  guidance_text_fallback (Option.some "Shelter") Option.none (Option.some 10)
    (Option.some 12) (Option.some 15) ["go north"] "high" (Option.some 5) []
    (Or.inl rfl)

/-- Claim C6: the Safe-Place Stage keeps exactly the candidate places not
flagged as inside a danger zone, in their original order, and on a
directory failure it yields the empty list together with a warning,
without propagating the failure. -/
theorem safe_place_stage_spec (latitude longitude : ℚ) (danger_zones : List DangerZone)
    (fetch_safe_places : ℚ → ℚ → ℚ → List DangerZone → Except String (List SafePlace)) :
    (∀ places, fetch_safe_places latitude longitude 20 danger_zones = Except.ok places →
      safePlaceStage latitude longitude danger_zones fetch_safe_places =
        (places.filter (fun place => !place.is_in_danger_zone), [])) ∧
    (∀ e, fetch_safe_places latitude longitude 20 danger_zones = Except.error e →
      safePlaceStage latitude longitude danger_zones fetch_safe_places =
        ([], ["Could not fetch safe places: " ++ e])) := by
  constructor
  · intro places h
    unfold safePlaceStage
    rw [h]
  · intro e h
    unfold safePlaceStage
    rw [h]

/-- Witness for claim C6 at a concrete input: one flagged and one
unflagged place. -/
theorem safe_place_stage_spec_witness :
    safePlaceStage 0 0 []
        (fun _ _ _ _ => Except.ok
          [⟨1, "A", 1, 1, 3, true⟩, ⟨2, "B", 2, 2, 4, false⟩]) =
      (([⟨1, "A", 1, 1, 3, true⟩, ⟨2, "B", 2, 2, 4, false⟩] :
          List SafePlace).filter (fun place => !place.is_in_danger_zone), []) :=
  (safe_place_stage_spec 0 0 []
      (fun _ _ _ _ => Except.ok [⟨1, "A", 1, 1, 3, true⟩, ⟨2, "B", 2, 2, 4, false⟩])).1
    [⟨1, "A", 1, 1, 3, true⟩, ⟨2, "B", 2, 2, 4, false⟩] rfl

/-- Claim C8: whenever the coverage estimator returns an estimate, the
Coverage Stage cannot fail the request: it returns normally, with the
fixed degradation warning exactly when the estimate does not indicate
coverage. -/
theorem coverage_stage_spec (latitude longitude : ℚ) (danger_zones : List DangerZone)
    (estimate_coverage_simple : ℚ → ℚ → List DangerZone → Except String Coverage)
    (coverage : Coverage)
    (h : estimate_coverage_simple latitude longitude danger_zones = Except.ok coverage) :
    coverageStage latitude longitude danger_zones estimate_coverage_simple =
      Except.ok (if coverage.has_coverage = Option.some true then []
        else ["Cell coverage may be degraded in your area"]) := by
  unfold coverageStage
  rw [h]
  dsimp only
  split_ifs <;> rfl

/-- Witness for claim C8 at a concrete input: an estimate without
coverage yields the fixed warning. -/
theorem coverage_stage_spec_witness :
    coverageStage 0 0 [] (fun _ _ _ => Except.ok ⟨Option.some false⟩) =
      Except.ok (if (Option.some false : Option Bool) = Option.some true then []
        else ["Cell coverage may be degraded in your area"]) :=
  coverage_stage_spec 0 0 [] (fun _ _ _ => Except.ok ⟨Option.some false⟩)
    ⟨Option.some false⟩ rfl

theorem riskStage_of_error (latitude longitude : ℚ)
    (fetch_fires : ℚ → ℚ → ℚ → Except String (List Fire))
    (create_danger_zones : List Fire → Except String (List DangerZone))
    (determine_alert_level : Option ℚ → Nat → Except String AlertLevel) (e : String)
    (h : riskFetch latitude longitude fetch_fires create_danger_zones determine_alert_level =
      Except.error e) :
    riskStage latitude longitude fetch_fires create_danger_zones determine_alert_level =
      ([], [], Option.none, Sum.inr "none", ["Could not fetch fire data: " ++ e]) := by
  unfold riskStage
  rw [h]

/-- Claim C2: when the fire-feed fetch or the danger-zone/alert-level
derivation fails, the risk stage substitutes the degraded defaults
(empty fires, empty danger zones, null closest distance, level none)
plus a warning naming the fire-data failure, and the final result still
carries the null distance, the "none" level and that warning. -/
theorem fire_failure_degrades (latitude longitude : ℚ)
    (fetch_fires : ℚ → ℚ → ℚ → Except String (List Fire))
    (create_danger_zones : List Fire → Except String (List DangerZone))
    (determine_alert_level : Option ℚ → Nat → Except String AlertLevel)
    (fetch_safe_places : ℚ → ℚ → ℚ → List DangerZone → Except String (List SafePlace))
    (estimate_coverage_simple : ℚ → ℚ → List DangerZone → Except String Coverage)
    (get_route_to_nearest_safe_place :
      ℚ → ℚ → List DestinationInfo → List DangerZone →
        Except String (Option (Route × ChosenDestination)))
    (e : String)
    (hfail : riskFetch latitude longitude fetch_fires create_danger_zones
      determine_alert_level = Except.error e) :
    riskStage latitude longitude fetch_fires create_danger_zones determine_alert_level =
      ([], [], Option.none, Sum.inr "none", ["Could not fetch fire data: " ++ e]) ∧
    ∀ r, build_evacuation_guidance latitude longitude fetch_fires create_danger_zones
        determine_alert_level fetch_safe_places estimate_coverage_simple
        get_route_to_nearest_safe_place = Except.ok r →
      r.closest_fire_km = Option.none ∧ r.alert_level = "none" ∧
        ("Could not fetch fire data: " ++ e) ∈ r.warnings := by
  have hrs := riskStage_of_error latitude longitude fetch_fires create_danger_zones
    determine_alert_level e hfail
  refine ⟨hrs, ?_⟩
  intro r hr
  unfold build_evacuation_guidance at hr
  rw [hrs] at hr
  dsimp only at hr
  cases hcov : coverageStage latitude longitude [] estimate_coverage_simple with
  | error e2 => rw [hcov] at hr; simp at hr
  | ok cw =>
    rw [hcov] at hr
    dsimp only at hr
    have hr2 := (Except.ok.inj hr).symm
    subst hr2
    refine ⟨rfl, rfl, ?_⟩
    simp [assembleResult]

/-- Witness for claim C2: a failing fire feed yields the degraded risk
stage output. -/
theorem fire_failure_degrades_witness :
    riskStage 0 0 (fun _ _ _ => Except.error "boom") (fun _ => Except.ok [])
        (fun _ _ => Except.ok AlertLevel.none) =
      ([], [], Option.none, Sum.inr "none", ["Could not fetch fire data: " ++ "boom"]) :=
  (fire_failure_degrades 0 0 (fun _ _ _ => Except.error "boom") (fun _ => Except.ok [])
      (fun _ _ => Except.ok AlertLevel.none) (fun _ _ _ _ => Except.error "nope")
      (fun _ _ _ => Except.ok ⟨Option.some true⟩) (fun _ _ _ _ => Except.ok Option.none)
      "boom" rfl).1

theorem assembleResult_route_steps (latitude longitude : ℚ) (closest_fire_km : Option ℚ)
    (alert_level : Sum AlertLevel String) (route : Option Route)
    (destination : Option SafePlace) (warnings : List String) :
    (assembleResult latitude longitude closest_fire_km alert_level route destination
        warnings).route_steps.length ≤ 3 ∧
    (∀ s ∈ (assembleResult latitude longitude closest_fire_km alert_level route destination
        warnings).route_steps, s ≠ "") ∧
    (route = Option.none →
      (assembleResult latitude longitude closest_fire_km alert_level route destination
        warnings).route_steps = []) := by
  dsimp only [assembleResult]
  cases route with
  | none => simp
  | some ro =>
    refine ⟨?_, ?_, ?_⟩
    · simp only [List.length_take]
      omega
    · intro s hs
      have hs' := List.mem_of_mem_take hs
      obtain ⟨step, hstep, hs2⟩ := List.mem_map.1 hs'
      have hp := (List.mem_filter.1 hstep).2
      subst hs2
      simp at hp
      exact hp
    · intro h
      cases h

/-- Claim C5: the route-steps field of the final result has length at
most three and contains no empty instruction, even when the route has
more steps or steps with empty instructions; when the routing stage
produced no route, the field is empty. -/
theorem route_steps_bounded (latitude longitude : ℚ)
    (fetch_fires : ℚ → ℚ → ℚ → Except String (List Fire))
    (create_danger_zones : List Fire → Except String (List DangerZone))
    (determine_alert_level : Option ℚ → Nat → Except String AlertLevel)
    (fetch_safe_places : ℚ → ℚ → ℚ → List DangerZone → Except String (List SafePlace))
    (estimate_coverage_simple : ℚ → ℚ → List DangerZone → Except String Coverage)
    (get_route_to_nearest_safe_place :
      ℚ → ℚ → List DestinationInfo → List DangerZone →
        Except String (Option (Route × ChosenDestination))) :
    ∀ r, build_evacuation_guidance latitude longitude fetch_fires create_danger_zones
        determine_alert_level fetch_safe_places estimate_coverage_simple
        get_route_to_nearest_safe_place = Except.ok r →
      r.route_steps.length ≤ 3 ∧
      (∀ s ∈ r.route_steps, s ≠ "") ∧
      ((routingStage latitude longitude
          (safePlaceStage latitude longitude
            (riskStage latitude longitude fetch_fires create_danger_zones
              determine_alert_level).2.1 fetch_safe_places).1
          (riskStage latitude longitude fetch_fires create_danger_zones
            determine_alert_level).2.1 get_route_to_nearest_safe_place).1 = Option.none →
        r.route_steps = []) := by
  intro r hr
  unfold build_evacuation_guidance at hr
  dsimp only at hr
  cases hcov : coverageStage latitude longitude
      (riskStage latitude longitude fetch_fires create_danger_zones
        determine_alert_level).2.1 estimate_coverage_simple with
  | error e2 => rw [hcov] at hr; simp at hr
  | ok cw =>
    rw [hcov] at hr
    dsimp only at hr
    have hr2 := (Except.ok.inj hr).symm
    subst hr2
    exact ⟨(assembleResult_route_steps _ _ _ _ _ _ _).1,
      (assembleResult_route_steps _ _ _ _ _ _ _).2.1,
      (assembleResult_route_steps _ _ _ _ _ _ _).2.2⟩

/-- Witness for claim C5: a route with four steps, one of them empty,
yields a truncated step list in the result. -/
theorem route_steps_bounded_witness :
    (assembleResult 0 0 (Option.some 5) (Sum.inl AlertLevel.high)
        (Option.some ⟨12, 15, [⟨"a"⟩, ⟨""⟩, ⟨"b"⟩, ⟨"c"⟩]⟩)
        (Option.some ⟨1, "Shelter", 1, 1, 10, false⟩) []).route_steps.length ≤ 3 :=
  (route_steps_bounded 0 0 (fun _ _ _ => Except.ok [⟨5⟩]) (fun _ => Except.ok [])
      (fun _ _ => Except.ok AlertLevel.high)
      (fun _ _ _ _ => Except.ok [⟨1, "Shelter", 1, 1, 10, false⟩])
      (fun _ _ _ => Except.ok ⟨Option.some true⟩)
      (fun _ _ _ _ => Except.ok (Option.some (⟨12, 15, [⟨"a"⟩, ⟨""⟩, ⟨"b"⟩, ⟨"c"⟩]⟩, ⟨1⟩)))
      (assembleResult 0 0 (Option.some 5) (Sum.inl AlertLevel.high)
        (Option.some ⟨12, 15, [⟨"a"⟩, ⟨""⟩, ⟨"b"⟩, ⟨"c"⟩]⟩)
        (Option.some ⟨1, "Shelter", 1, 1, 10, false⟩) []) rfl).1

/-- Claim C7: the routing stage is skipped (with no warning and no call
to the collaborator) when no candidate exists, depends on the
collaborator only through its value at the first five candidates in
list order, keeps the first safe place as destination on failure or on
an empty routing result, and cross-references a supplied chosen
destination id back into the candidate list. -/
theorem routing_stage_spec (latitude longitude : ℚ) (safe_places : List SafePlace)
    (danger_zones : List DangerZone)
    (get_route_to_nearest_safe_place :
      ℚ → ℚ → List DestinationInfo → List DangerZone →
        Except String (Option (Route × ChosenDestination))) :
    (safe_places = [] →
      routingStage latitude longitude safe_places danger_zones
          get_route_to_nearest_safe_place =
        (Option.none, Option.none, [])) ∧
    (∀ grt2, get_route_to_nearest_safe_place latitude longitude
          ((safe_places.take 5).map mkDestinationInfo) danger_zones =
        grt2 latitude longitude ((safe_places.take 5).map mkDestinationInfo) danger_zones →
      routingStage latitude longitude safe_places danger_zones
          get_route_to_nearest_safe_place =
        routingStage latitude longitude safe_places danger_zones grt2) ∧
    (∀ p rest, safe_places = p :: rest →
      (∀ e, get_route_to_nearest_safe_place latitude longitude
            ((safe_places.take 5).map mkDestinationInfo) danger_zones = Except.error e →
        (routingStage latitude longitude safe_places danger_zones
            get_route_to_nearest_safe_place).2.1 = Option.some p) ∧
      (get_route_to_nearest_safe_place latitude longitude
            ((safe_places.take 5).map mkDestinationInfo) danger_zones =
          Except.ok Option.none →
        (routingStage latitude longitude safe_places danger_zones
            get_route_to_nearest_safe_place).2.1 = Option.some p) ∧
      (∀ route chosen q,
        get_route_to_nearest_safe_place latitude longitude
            ((safe_places.take 5).map mkDestinationInfo) danger_zones =
          Except.ok (Option.some (route, chosen)) →
        safe_places.find? (fun place => place.id == chosen.id) = Option.some q →
        routingStage latitude longitude safe_places danger_zones
            get_route_to_nearest_safe_place =
          (Option.some route, Option.some q, []))) := by
  refine ⟨?_, ?_, ?_⟩
  · intro h
    subst h
    rfl
  · intro grt2 heq
    unfold routingStage
    cases safe_places with
    | nil => rfl
    | cons p rest =>
      dsimp only
      rw [heq]
  · intro p rest hsp
    subst hsp
    refine ⟨?_, ?_, ?_⟩
    · intro e he
      unfold routingStage
      dsimp only
      rw [he]
      rfl
    · intro he
      unfold routingStage
      dsimp only
      rw [he]
      rfl
    · intro route chosen q hgrt hfind
      unfold routingStage
      dsimp only
      rw [hgrt]
      dsimp only
      rw [hfind]

/-- Witness for claim C7: the collaborator picks the second candidate by
id and the stage cross-references it. -/
theorem routing_stage_spec_witness :
    routingStage 0 0 [⟨1, "A", 1, 1, 3, false⟩, ⟨2, "B", 2, 2, 4, false⟩] []
        (fun _ _ _ _ => Except.ok (Option.some (⟨7, 9, []⟩, ⟨2⟩))) =
      (Option.some ⟨7, 9, []⟩, Option.some ⟨2, "B", 2, 2, 4, false⟩, []) :=
  ((routing_stage_spec 0 0 [⟨1, "A", 1, 1, 3, false⟩, ⟨2, "B", 2, 2, 4, false⟩] []
      (fun _ _ _ _ => Except.ok (Option.some (⟨7, 9, []⟩, ⟨2⟩)))).2.2
    ⟨1, "A", 1, 1, 3, false⟩ [⟨2, "B", 2, 2, 4, false⟩] rfl).2.2
    ⟨7, 9, []⟩ ⟨2⟩ ⟨2, "B", 2, 2, 4, false⟩ rfl rfl

theorem routingStage_dest_mem (latitude longitude : ℚ) (safe_places : List SafePlace)
    (danger_zones : List DangerZone)
    (get_route_to_nearest_safe_place :
      ℚ → ℚ → List DestinationInfo → List DangerZone →
        Except String (Option (Route × ChosenDestination))) (p : SafePlace)
    (h : (routingStage latitude longitude safe_places danger_zones
        get_route_to_nearest_safe_place).2.1 = Option.some p) :
    p ∈ safe_places := by
  unfold routingStage at h
  cases safe_places with
  | nil => simp at h
  | cons q rest =>
    dsimp only at h
    cases hg : get_route_to_nearest_safe_place latitude longitude
        (((q :: rest).take 5).map mkDestinationInfo) danger_zones with
    | error e =>
      rw [hg] at h
      dsimp only at h
      rw [Option.some.inj h.symm]
      exact List.mem_cons_self q rest
    | ok o =>
      cases o with
      | none =>
        rw [hg] at h
        dsimp only at h
        rw [Option.some.inj h.symm]
        exact List.mem_cons_self q rest
      | some pr =>
        obtain ⟨route, chosen⟩ := pr
        rw [hg] at h
        dsimp only at h
        cases hf : (q :: rest).find? (fun place => place.id == chosen.id) with
        | none =>
          rw [hf] at h
          dsimp only at h
          rw [Option.some.inj h.symm]
          exact List.mem_cons_self q rest
        | some pl =>
          rw [hf] at h
          dsimp only at h
          rw [Option.some.inj h.symm]
          exact List.mem_of_find?_eq_some hf

theorem safePlaceStage_not_flagged (latitude longitude : ℚ) (danger_zones : List DangerZone)
    (fetch_safe_places : ℚ → ℚ → ℚ → List DangerZone → Except String (List SafePlace))
    (p : SafePlace)
    (h : p ∈ (safePlaceStage latitude longitude danger_zones fetch_safe_places).1) :
    p.is_in_danger_zone = false := by
  unfold safePlaceStage at h
  cases hf : fetch_safe_places latitude longitude 20 danger_zones with
  | ok places =>
    rw [hf] at h
    dsimp only at h
    have hp := (List.mem_filter.1 h).2
    simp at hp
    exact hp
  | error e =>
    rw [hf] at h
    simp at h

/-- Claim C10: a non-null final destination is always an element of the
filtered safe-place list, hence a place not flagged as inside a danger
zone; and when the routing collaborator returns a chosen destination id
matching no place in that list, the destination silently remains the
first safe place. -/
theorem destination_invariant (latitude longitude : ℚ) (danger_zones : List DangerZone)
    (fetch_safe_places : ℚ → ℚ → ℚ → List DangerZone → Except String (List SafePlace))
    (get_route_to_nearest_safe_place :
      ℚ → ℚ → List DestinationInfo → List DangerZone →
        Except String (Option (Route × ChosenDestination))) :
    (∀ p, (routingStage latitude longitude
          (safePlaceStage latitude longitude danger_zones fetch_safe_places).1 danger_zones
          get_route_to_nearest_safe_place).2.1 = Option.some p →
      p ∈ (safePlaceStage latitude longitude danger_zones fetch_safe_places).1 ∧
        p.is_in_danger_zone = false) ∧
    (∀ route chosen,
      get_route_to_nearest_safe_place latitude longitude
          (((safePlaceStage latitude longitude danger_zones fetch_safe_places).1.take 5).map
            mkDestinationInfo) danger_zones = Except.ok (Option.some (route, chosen)) →
      (safePlaceStage latitude longitude danger_zones fetch_safe_places).1.find?
          (fun place => place.id == chosen.id) = Option.none →
      (routingStage latitude longitude
          (safePlaceStage latitude longitude danger_zones fetch_safe_places).1 danger_zones
          get_route_to_nearest_safe_place).2.1 =
        (safePlaceStage latitude longitude danger_zones fetch_safe_places).1.head?) := by
  constructor
  · intro p h
    have hmem := routingStage_dest_mem latitude longitude _ danger_zones
      get_route_to_nearest_safe_place p h
    exact ⟨hmem, safePlaceStage_not_flagged latitude longitude danger_zones
      fetch_safe_places p hmem⟩
  · intro route chosen hg hf
    cases hsp : (safePlaceStage latitude longitude danger_zones fetch_safe_places).1 with
    | nil => rfl
    | cons q rest =>
      rw [hsp] at hg hf
      unfold routingStage
      dsimp only
      rw [hg]
      dsimp only
      rw [hf]

/-- Witness for claim C10: with one flagged and one unflagged candidate
and a failing router, the destination is the unflagged place, a member
of the filtered list. -/
theorem destination_invariant_witness :
    (⟨2, "B", 2, 2, 4, false⟩ : SafePlace) ∈
        (safePlaceStage 0 0 []
          (fun _ _ _ _ => Except.ok
            [⟨1, "A", 1, 1, 3, true⟩, ⟨2, "B", 2, 2, 4, false⟩])).1 ∧
      (⟨2, "B", 2, 2, 4, false⟩ : SafePlace).is_in_danger_zone = false :=
  (destination_invariant 0 0 []
      (fun _ _ _ _ => Except.ok [⟨1, "A", 1, 1, 3, true⟩, ⟨2, "B", 2, 2, 4, false⟩])
      (fun _ _ _ _ => Except.error "routing down")).1
    ⟨2, "B", 2, 2, 4, false⟩ rfl

theorem riskStage_alert_mem (latitude longitude : ℚ)
    (fetch_fires : ℚ → ℚ → ℚ → Except String (List Fire))
    (create_danger_zones : List Fire → Except String (List DangerZone))
    (determine_alert_level : Option ℚ → Nat → Except String AlertLevel) :
    alertLevelStr (riskStage latitude longitude fetch_fires create_danger_zones
        determine_alert_level).2.2.2.1 ∈
      ["none", "low", "medium", "high", "critical"] := by
  unfold riskStage
  cases hf : riskFetch latitude longitude fetch_fires create_danger_zones
      determine_alert_level with
  | ok v =>
    obtain ⟨fires, dz, ck, lvl⟩ := v
    dsimp only
    cases lvl <;> decide
  | error e =>
    dsimp only
    decide

theorem safePlaceStage_of_error (latitude longitude : ℚ) (danger_zones : List DangerZone)
    (fetch_safe_places : ℚ → ℚ → ℚ → List DangerZone → Except String (List SafePlace))
    (e : String)
    (h : fetch_safe_places latitude longitude 20 danger_zones = Except.error e) :
    safePlaceStage latitude longitude danger_zones fetch_safe_places =
      ([], ["Could not fetch safe places: " ++ e]) := by
  unfold safePlaceStage
  rw [h]

/-- Counterexample to claim C1 as stated: a failing coverage estimator
makes the whole request fail, because the call at line 118 of the
source sits outside every try block, so not every collaborator failure
is converted into a warning. -/
theorem build_raises_on_coverage_failure :
    build_evacuation_guidance 0 0 (fun _ _ _ => Except.ok []) (fun _ => Except.ok [])
        (fun _ _ => Except.ok AlertLevel.none) (fun _ _ _ _ => Except.ok [])
        (fun _ _ _ => Except.error "coverage backend down")
        (fun _ _ _ _ => Except.ok Option.none) =
      Except.error "coverage backend down" := rfl

/-- Claim C1 as amended: for every behavior of the five guarded
collaborators, and whenever the coverage estimator returns a value, the
pipeline returns a complete result whose guidance text is non-empty and
whose alert level is a valid level, and each guarded collaborator
failure is converted into an entry of the warnings list. -/
theorem build_total_and_complete (latitude longitude : ℚ)
    (fetch_fires : ℚ → ℚ → ℚ → Except String (List Fire))
    (create_danger_zones : List Fire → Except String (List DangerZone))
    (determine_alert_level : Option ℚ → Nat → Except String AlertLevel)
    (fetch_safe_places : ℚ → ℚ → ℚ → List DangerZone → Except String (List SafePlace))
    (estimate_coverage_simple : ℚ → ℚ → List DangerZone → Except String Coverage)
    (get_route_to_nearest_safe_place :
      ℚ → ℚ → List DestinationInfo → List DangerZone →
        Except String (Option (Route × ChosenDestination)))
    (hcov : ∀ dz, ∃ c, estimate_coverage_simple latitude longitude dz = Except.ok c) :
    (build_evacuation_guidance latitude longitude fetch_fires create_danger_zones
        determine_alert_level fetch_safe_places estimate_coverage_simple
        get_route_to_nearest_safe_place).isOk = true ∧
    ∀ r, build_evacuation_guidance latitude longitude fetch_fires create_danger_zones
        determine_alert_level fetch_safe_places estimate_coverage_simple
        get_route_to_nearest_safe_place = Except.ok r →
      r.guidance_text ≠ "" ∧
      r.alert_level ∈ ["none", "low", "medium", "high", "critical"] ∧
      (∀ e, riskFetch latitude longitude fetch_fires create_danger_zones
          determine_alert_level = Except.error e →
        ("Could not fetch fire data: " ++ e) ∈ r.warnings) ∧
      (∀ e, fetch_safe_places latitude longitude 20
          (riskStage latitude longitude fetch_fires create_danger_zones
            determine_alert_level).2.1 = Except.error e →
        ("Could not fetch safe places: " ++ e) ∈ r.warnings) ∧
      (∀ e, (safePlaceStage latitude longitude
            (riskStage latitude longitude fetch_fires create_danger_zones
              determine_alert_level).2.1 fetch_safe_places).1 ≠ [] →
        get_route_to_nearest_safe_place latitude longitude
            (((safePlaceStage latitude longitude
              (riskStage latitude longitude fetch_fires create_danger_zones
                determine_alert_level).2.1 fetch_safe_places).1.take 5).map
              mkDestinationInfo)
            (riskStage latitude longitude fetch_fires create_danger_zones
              determine_alert_level).2.1 = Except.error e →
        ("Could not calculate route: " ++ e) ∈ r.warnings) := by
  obtain ⟨c, hc⟩ := hcov (riskStage latitude longitude fetch_fires create_danger_zones
    determine_alert_level).2.1
  have hcs : ∃ cw, coverageStage latitude longitude
      (riskStage latitude longitude fetch_fires create_danger_zones
        determine_alert_level).2.1 estimate_coverage_simple = Except.ok cw := by
    unfold coverageStage
    rw [hc]
    dsimp only
    split_ifs <;> exact ⟨_, rfl⟩
  obtain ⟨cw, hcw⟩ := hcs
  constructor
  · unfold build_evacuation_guidance
    dsimp only
    rw [hcw]
    rfl
  · intro r hr
    unfold build_evacuation_guidance at hr
    dsimp only at hr
    rw [hcw] at hr
    dsimp only at hr
    have hr2 := (Except.ok.inj hr).symm
    subst hr2
    refine ⟨?_, ?_, ?_, ?_, ?_⟩
    · refine string_ne_empty_of_length_pos ?_
      dsimp only [assembleResult]
      exact build_guidance_text_length_pos _ _ _ _ _ _ _ _ _
    · dsimp only [assembleResult]
      exact riskStage_alert_mem latitude longitude fetch_fires create_danger_zones
        determine_alert_level
    · intro e he
      have hrs := riskStage_of_error latitude longitude fetch_fires create_danger_zones
        determine_alert_level e he
      dsimp only [assembleResult]
      rw [hrs]
      simp
    · intro e he
      have hsp := safePlaceStage_of_error latitude longitude
        (riskStage latitude longitude fetch_fires create_danger_zones
          determine_alert_level).2.1 fetch_safe_places e he
      dsimp only [assembleResult]
      rw [hsp]
      simp
    · intro e hne he
      dsimp only [assembleResult]
      cases hsp2 : (safePlaceStage latitude longitude
          (riskStage latitude longitude fetch_fires create_danger_zones
            determine_alert_level).2.1 fetch_safe_places).1 with
      | nil => exact absurd hsp2 hne
      | cons q rest =>
        rw [hsp2] at he
        have hrt : (routingStage latitude longitude (q :: rest)
            (riskStage latitude longitude fetch_fires create_danger_zones
              determine_alert_level).2.1 get_route_to_nearest_safe_place).2.2 =
            ["Could not calculate route: " ++ e] := by
          unfold routingStage
          dsimp only
          rw [he]
        rw [hrt]
        simp

/-- Witness for the amended claim C1: with every guarded collaborator
failing and the estimator returning a value, the pipeline still
succeeds. -/
theorem build_total_and_complete_witness :
    (build_evacuation_guidance 0 0 (fun _ _ _ => Except.error "feed down")
        (fun _ => Except.ok []) (fun _ _ => Except.ok AlertLevel.none)
        (fun _ _ _ _ => Except.error "directory down")
        (fun _ _ _ => Except.ok ⟨Option.some true⟩)
        (fun _ _ _ _ => Except.error "routing down")).isOk = true :=
  (build_total_and_complete 0 0 (fun _ _ _ => Except.error "feed down")
      (fun _ => Except.ok []) (fun _ _ => Except.ok AlertLevel.none)
      (fun _ _ _ _ => Except.error "directory down")
      (fun _ _ _ => Except.ok ⟨Option.some true⟩)
      (fun _ _ _ _ => Except.error "routing down")
      (fun _ => ⟨⟨Option.some true⟩, rfl⟩)).1

theorem atan2_zero_of_nonneg {b : ℝ} (h : 0 ≤ b) : atan2 0 b = 0 := by
  unfold atan2
  have hb : ({ re := b, im := 0 } : ℂ) = (b : ℂ) := rfl
  rw [hb]
  exact Complex.arg_ofReal_of_nonneg h

theorem atan2_zero_of_neg {b : ℝ} (h : b < 0) : atan2 0 b = Real.pi := by
  unfold atan2
  have hb : ({ re := b, im := 0 } : ℂ) = (b : ℂ) := rfl
  rw [hb]
  exact Complex.arg_ofReal_of_neg h

theorem atan2_pos_left {a : ℝ} (h : 0 < a) : atan2 a 0 = Real.pi / 2 := by
  unfold atan2
  exact Complex.arg_eq_pi_div_two_iff.mpr ⟨rfl, h⟩

theorem atan2_neg_left {a : ℝ} (h : a < 0) : atan2 a 0 = -(Real.pi / 2) := by
  unfold atan2
  exact Complex.arg_eq_neg_pi_div_two_iff.mpr ⟨rfl, h⟩

theorem initialBearingDeg_north (lat1 lat2 lng : ℝ) (h1 : -90 ≤ lat1) (hlt : lat1 < lat2)
    (h2 : lat2 ≤ 90) : initialBearingDeg lat1 lng lat2 lng = 0 := by
  unfold initialBearingDeg
  dsimp only
  rw [sub_self, zero_mul, Real.sin_zero, Real.cos_zero, zero_mul, mul_one]
  have hy : Real.cos (lat1 * (Real.pi / 180)) * Real.sin (lat2 * (Real.pi / 180)) -
      Real.sin (lat1 * (Real.pi / 180)) * Real.cos (lat2 * (Real.pi / 180)) =
      Real.sin (lat2 * (Real.pi / 180) - lat1 * (Real.pi / 180)) := by
    rw [Real.sin_sub]
    ring
  rw [hy]
  have hy0 : 0 ≤ Real.sin (lat2 * (Real.pi / 180) - lat1 * (Real.pi / 180)) := by
    apply Real.sin_nonneg_of_nonneg_of_le_pi
    · nlinarith [Real.pi_pos]
    · nlinarith [Real.pi_pos]
  rw [atan2_zero_of_nonneg hy0, zero_mul]

theorem initialBearingDeg_south (lat1 lat2 lng : ℝ) (h1 : -90 ≤ lat2) (hlt : lat2 < lat1)
    (h2 : lat1 ≤ 90) (h3 : lat1 - lat2 < 180) : initialBearingDeg lat1 lng lat2 lng = 180 := by
  unfold initialBearingDeg
  dsimp only
  rw [sub_self, zero_mul, Real.sin_zero, Real.cos_zero, zero_mul, mul_one]
  have hy : Real.cos (lat1 * (Real.pi / 180)) * Real.sin (lat2 * (Real.pi / 180)) -
      Real.sin (lat1 * (Real.pi / 180)) * Real.cos (lat2 * (Real.pi / 180)) =
      Real.sin (lat2 * (Real.pi / 180) - lat1 * (Real.pi / 180)) := by
    rw [Real.sin_sub]
    ring
  rw [hy]
  have hy0 : Real.sin (lat2 * (Real.pi / 180) - lat1 * (Real.pi / 180)) < 0 := by
    apply Real.sin_neg_of_neg_of_neg_pi_lt
    · nlinarith [Real.pi_pos]
    · nlinarith [Real.pi_pos]
  rw [atan2_zero_of_neg hy0]
  field_simp

theorem initialBearingDeg_east (lng1 lng2 : ℝ) (h1 : 0 < lng2 - lng1) (h2 : lng2 - lng1 < 180) :
    initialBearingDeg 0 lng1 0 lng2 = 90 := by
  unfold initialBearingDeg
  dsimp only
  rw [zero_mul, Real.sin_zero, Real.cos_zero, mul_one, one_mul, zero_mul, zero_mul, sub_zero]
  have hs : 0 < Real.sin ((lng2 - lng1) * (Real.pi / 180)) := by
    apply Real.sin_pos_of_pos_of_lt_pi
    · nlinarith [Real.pi_pos]
    · nlinarith [Real.pi_pos]
  rw [atan2_pos_left hs]
  field_simp
  ring

theorem initialBearingDeg_west (lng1 lng2 : ℝ) (h1 : 0 < lng1 - lng2) (h2 : lng1 - lng2 < 180) :
    initialBearingDeg 0 lng1 0 lng2 = -90 := by
  unfold initialBearingDeg
  dsimp only
  rw [zero_mul, Real.sin_zero, Real.cos_zero, mul_one, one_mul, zero_mul, zero_mul, sub_zero]
  have hs : Real.sin ((lng2 - lng1) * (Real.pi / 180)) < 0 := by
    apply Real.sin_neg_of_neg_of_neg_pi_lt
    · nlinarith [Real.pi_pos]
    · nlinarith [Real.pi_pos]
  rw [atan2_neg_left hs]
  field_simp
  ring

theorem bearing_to_cardinal_of_deg (origin_lat origin_lng dest_lat dest_lng : ℝ) {b : ℝ}
    (hb : initialBearingDeg origin_lat origin_lng dest_lat dest_lng = b) :
    bearing_to_cardinal origin_lat origin_lng dest_lat dest_lng =
      directions.getD ((pyRound (((b + 360) - 360 * ⌊(b + 360) / 360⌋) / 45)) % 8).toNat "" := by
  unfold bearing_to_cardinal
  dsimp only
  rw [hb]

theorem pyRound_intCast (n : ℤ) : pyRound ((n : ℝ)) = n := by
  unfold pyRound
  rw [Int.fract_intCast, if_neg (by norm_num), round_intCast]

theorem dial_north :
    directions.getD ((pyRound ((((0:ℝ) + 360) - 360 * ⌊((0:ℝ) + 360) / 360⌋) / 45)) % 8).toNat
      "" = "north" := by
  have hf : ⌊((0:ℝ) + 360) / 360⌋ = 1 := by
    rw [show ((0:ℝ) + 360) / 360 = 1 by norm_num]
    exact Int.floor_one
  rw [hf, show ((((0:ℝ) + 360) - 360 * ((1:ℤ) : ℝ)) / 45) = ((0:ℤ) : ℝ) by push_cast; norm_num,
    pyRound_intCast]
  decide

theorem dial_east :
    directions.getD ((pyRound ((((90:ℝ) + 360) - 360 * ⌊((90:ℝ) + 360) / 360⌋) / 45)) % 8).toNat
      "" = "east" := by
  have hf : ⌊((90:ℝ) + 360) / 360⌋ = 1 := by
    rw [show ((90:ℝ) + 360) / 360 = 5/4 by norm_num, Int.floor_eq_iff]
    norm_num
  rw [hf, show ((((90:ℝ) + 360) - 360 * ((1:ℤ) : ℝ)) / 45) = ((2:ℤ) : ℝ) by push_cast; norm_num,
    pyRound_intCast]
  decide

theorem dial_south :
    directions.getD ((pyRound ((((180:ℝ) + 360) - 360 * ⌊((180:ℝ) + 360) / 360⌋) / 45)) % 8).toNat
      "" = "south" := by
  have hf : ⌊((180:ℝ) + 360) / 360⌋ = 1 := by
    rw [show ((180:ℝ) + 360) / 360 = 3/2 by norm_num, Int.floor_eq_iff]
    norm_num
  rw [hf, show ((((180:ℝ) + 360) - 360 * ((1:ℤ) : ℝ)) / 45) = ((4:ℤ) : ℝ) by push_cast; norm_num,
    pyRound_intCast]
  decide

theorem dial_west :
    directions.getD ((pyRound ((((-90:ℝ) + 360) - 360 * ⌊((-90:ℝ) + 360) / 360⌋) / 45)) % 8).toNat
      "" = "west" := by
  have hf : ⌊((-90:ℝ) + 360) / 360⌋ = 0 := by
    rw [show ((-90:ℝ) + 360) / 360 = 3/4 by norm_num, Int.floor_eq_iff]
    norm_num
  rw [hf, show ((((-90:ℝ) + 360) - 360 * ((0:ℤ) : ℝ)) / 45) = ((6:ℤ) : ℝ) by push_cast; norm_num,
    pyRound_intCast]
  decide

theorem getD_directions_mem (n : ℕ) (h : n < 8) : directions.getD n "" ∈ directions := by
  interval_cases n <;> decide

/-- Claim C9: a destination due north or due south of the origin, or due
east or due west of it along the equator, yields the matching single
cardinal direction, and every output of the bearing calculator is an
element of the fixed clockwise eight-direction list starting at north. -/
theorem bearing_cardinal_correct :
    (∀ lat1 lat2 lng : ℝ, -90 ≤ lat1 → lat1 < lat2 → lat2 ≤ 90 →
      bearing_to_cardinal lat1 lng lat2 lng = "north") ∧
    (∀ lat1 lat2 lng : ℝ, -90 ≤ lat2 → lat2 < lat1 → lat1 ≤ 90 → lat1 - lat2 < 180 →
      bearing_to_cardinal lat1 lng lat2 lng = "south") ∧
    (∀ lng1 lng2 : ℝ, 0 < lng2 - lng1 → lng2 - lng1 < 180 →
      bearing_to_cardinal 0 lng1 0 lng2 = "east") ∧
    (∀ lng1 lng2 : ℝ, 0 < lng1 - lng2 → lng1 - lng2 < 180 →
      bearing_to_cardinal 0 lng1 0 lng2 = "west") ∧
    (∀ origin_lat origin_lng dest_lat dest_lng : ℝ,
      bearing_to_cardinal origin_lat origin_lng dest_lat dest_lng ∈ directions) := by
  refine ⟨?_, ?_, ?_, ?_, ?_⟩
  · intro lat1 lat2 lng h1 hlt h2
    rw [bearing_to_cardinal_of_deg lat1 lng lat2 lng (initialBearingDeg_north lat1 lat2 lng h1 hlt h2)]
    exact dial_north
  · intro lat1 lat2 lng h1 hlt h2 h3
    rw [bearing_to_cardinal_of_deg lat1 lng lat2 lng (initialBearingDeg_south lat1 lat2 lng h1 hlt h2 h3)]
    exact dial_south
  · intro lng1 lng2 h1 h2
    rw [bearing_to_cardinal_of_deg 0 lng1 0 lng2 (initialBearingDeg_east lng1 lng2 h1 h2)]
    exact dial_east
  · intro lng1 lng2 h1 h2
    rw [bearing_to_cardinal_of_deg 0 lng1 0 lng2 (initialBearingDeg_west lng1 lng2 h1 h2)]
    exact dial_west
  · intro origin_lat origin_lng dest_lat dest_lng
    unfold bearing_to_cardinal
    dsimp only
    have key : ∀ z : ℤ, (z % 8).toNat < 8 := by
      intro z
      have h0 := Int.emod_nonneg z (show (8:ℤ) ≠ 0 by norm_num)
      have h8 := Int.emod_lt_of_pos z (show (0:ℤ) < 8 by norm_num)
      omega
    exact getD_directions_mem _ (key _)

/-- Witness for claim C9: a point ten degrees due north, and a point
ninety degrees due east on the equator. -/
theorem bearing_cardinal_correct_witness :
    bearing_to_cardinal 0 5 10 5 = "north" ∧ bearing_to_cardinal 0 0 0 90 = "east" :=
  ⟨bearing_cardinal_correct.1 0 10 5 (by norm_num) (by norm_num) (by norm_num),
   bearing_cardinal_correct.2.2.1 0 90 (by norm_num) (by norm_num)⟩

end EvacuationGuidance
